import Mathlib

/-!
Verification of the conversational task-management agent core of the
`phase-5-advanced-cloud-deployment` backend.

The development shallowly embeds the Python sources:

* `backend/agent/handlers/language.py` — language detector,
* `backend/agent/handlers/intent.py` — task matcher and lexical classifiers,
* `backend/agent/templates/confirmations.py`, `backend/agent/handlers/response.py`,
  `backend/agent/errors.py` — response templating,
* `backend/mcp/schemas/params.py`, `backend/mcp/schemas/responses.py`,
  `backend/mcp/crud/task.py`, `backend/mcp/tools/*.py` — the tool gateway,
* `backend/agent/runner.py` — the agent runner / state machine.

Python strings are `String`, integers are `Nat`/`Int`, dicts are structures,
`datetime.utcnow()` values are abstract `Nat` ticks passed in by the caller,
and fallible Python calls are `Except`/`Option` values.  Each definition keeps
the name of the source symbol it embeds where Lean allows it.
-/

/-- Python `str.split()` with no separator: split on runs of whitespace,
dropping empty pieces.  `cur` is the reversed current word accumulator. -/
def pyWordsAux : List Char → List Char → List String
  | [], cur => if cur.isEmpty then [] else [String.mk cur.reverse]
  | c :: cs, cur =>
    if c.isWhitespace then
      if cur.isEmpty then pyWordsAux cs [] else String.mk cur.reverse :: pyWordsAux cs []
    else pyWordsAux cs (c :: cur)

/-- Python `s.split()` (whitespace tokenizer). -/
def pyWords (s : String) : List String :=
  pyWordsAux s.data []

/-- Character-list test: `small` starts the list `big`. -/
def charsStartWith : List Char → List Char → Bool
  | [], _ => true
  | _ :: _, [] => false
  | a :: as, b :: bs => a == b && charsStartWith as bs

/-- Character-list test: `needle` occurs contiguously inside `hay`. -/
def charsContain (needle : List Char) : List Char → Bool
  | [] => needle.isEmpty
  | c :: rest => charsStartWith needle (c :: rest) || charsContain needle rest

/-- Python substring test `needle in hay`. -/
def strContains (hay needle : String) : Bool :=
  charsContain needle.data hay.data

/-- Python `str.lower()`; ASCII case folding like `Char.toLower`, which
matches `str.lower` on the ASCII keywords and titles the sources compare. -/
def pyLower (s : String) : String :=
  String.mk (s.data.map Char.toLower)

/-- Python `str.strip()`: drop leading and trailing whitespace. -/
def pyStrip (s : String) : String :=
  String.mk (((s.data.dropWhile Char.isWhitespace).reverse.dropWhile Char.isWhitespace).reverse)

/-- Python `set(xs)` over a word list, as a duplicate-free list preserving
first occurrences; set operations below are phrased over these lists. -/
def pySet (xs : List String) : List String :=
  xs.dedup

/-- Cardinality of `set(xs) ∩ set(ys)` for word lists. -/
def setInterCard (xs ys : List String) : Nat :=
  ((pySet xs).filter (fun w => (pySet ys).contains w)).length

/- ------------------------------------------------------------------
`backend/agent/handlers/language.py`
------------------------------------------------------------------ -/

/-- Membership in the Arabic-script Unicode block, `URDU_PATTERN = [؀-ۿ]`
(language.py line 12). -/
def isArabicChar (c : Char) : Bool :=
  0x0600 ≤ c.toNat && c.toNat ≤ 0x06FF

/-- `ROMAN_URDU_KEYWORDS` (language.py lines 16-36). -/
def ROMAN_URDU_KEYWORDS : List String :=
  ["assalam", "walaikum", "salam", "khuda", "allah",
   "kya", "kia", "kaise", "kaisay", "kaisa", "karo", "karein", "karna",
   "hain", "tha", "thi", "haan", "nahi", "nahin",
   "mera", "meri", "mere", "aap", "tum", "ap",
   "kar", "dein", "dijiye", "kijiye",
   "theek", "thik", "accha", "acha",
   "shukriya", "meherbani",
   "dekho", "dikhao", "batao", "bata",
   "abhi", "kal", "aaj", "parso",
   "wala", "wali", "wale",
   "mujhe", "mujhay", "humein",
   "yeh", "ye", "woh", "wo",
   "ati", "ata", "hai", "ho", "main", "tumhe", "tumhein",
   "ko", "ka", "ki", "ke", "se", "pe", "par",
   "baat", "urdu", "sakty", "sakta", "sakti",
   "ji", "bilkul", "zaroor"]

/-- The strong single-word indicators of `detect_language` (language.py line 66). -/
def strong_indicators : List String :=
  ["shukriya", "assalam", "walaikum", "meherbani", "karo", "karein", "dijiye"]

/-- `detect_language` (language.py lines 39-71): Arabic-script char → "ur";
two or more Roman-Urdu keywords → "roman_ur"; one strong indicator →
"roman_ur"; default "en". -/
def detect_language (message : String) : String :=
  if message.data.any isArabicChar then "ur"
  else
    let words := pySet (pyWords (pyLower message))
    let roman_urdu_matches := words.filter (fun w => ROMAN_URDU_KEYWORDS.contains w)
    if roman_urdu_matches.length ≥ 2 then "roman_ur"
    else if words.any (fun w => strong_indicators.contains w) then "roman_ur"
    else "en"

/- ------------------------------------------------------------------
`backend/agent/handlers/intent.py`
------------------------------------------------------------------ -/

/-- TaskRow dict as consumed by the matcher and the runner: the embedding keeps
the two keys the agent layer reads, `id` and `title`. -/
structure TaskRef where
  id : Nat
  title : String
deriving Repr, DecidableEq

/-- Substring tier of `match_task_by_title` (intent.py line 47):
`query_lower in title or title in query_lower`. -/
def substringQual (query_lower : String) (t : TaskRef) : Bool :=
  strContains (pyLower t.title) query_lower || strContains query_lower (pyLower t.title)

/-- Word-overlap tier of `match_task_by_title` (intent.py lines 52-54):
`len(overlap) >= len(query_words) * 0.5 and len(overlap) >= 1`, the float
comparison rendered exactly as `2 * |overlap| ≥ |query_words|`. -/
def overlapQual (query_words : List String) (t : TaskRef) : Bool :=
  let title_words := pyWords (pyLower t.title)
  let overlap := setInterCard query_words title_words
  decide (2 * overlap ≥ (pySet query_words).length) && decide (overlap ≥ 1)

/-- The scan loop of `match_task_by_title` (intent.py lines 37-55).  Returns
`(exact_match, matches)`; an exact title hit resets `matches` to the single
task and stops the loop (`matches = [task]; break`), which is why an exact
hit further down the list discards candidates accumulated before it. -/
def matchScan (query_lower : String) (query_words : List String) :
    List TaskRef → Option TaskRef × List TaskRef
  | [] => (none, [])
  | t :: rest =>
    if pyLower t.title = query_lower then
      (some t, [t])
    else if substringQual query_lower t then
      match matchScan query_lower query_words rest with
      | (some e, ms) => (some e, ms)
      | (none, ms) => (none, t :: ms)
    else if overlapQual query_words t then
      match matchScan query_lower query_words rest with
      | (some e, ms) => (some e, ms)
      | (none, ms) => (none, t :: ms)
    else
      matchScan query_lower query_words rest

/-- `match_task_by_title` (intent.py lines 7-63). -/
def match_task_by_title (query : String) (tasks : List TaskRef) :
    Option TaskRef × List TaskRef :=
  if tasks.isEmpty || query.data.isEmpty then (none, [])
  else
    let query_lower := pyStrip (pyLower query)
    let query_words := pySet (pyWords query_lower)
    match matchScan query_lower query_words tasks with
    | (some e, _) => (some e, [e])
    | (none, [m]) => (some m, [m])
    | (none, ms) => (none, ms)

/-- `detect_ambiguity` (intent.py lines 66-75). -/
def detect_ambiguity (ms : List TaskRef) : Bool :=
  ms.length > 1

/- ------------------------------------------------------------------
Python integer parsing, `backend/mcp/schemas/params.py`
------------------------------------------------------------------ -/

/-- Digits-to-number accumulator for `pyParseInt`. -/
def digitsToNat : List Char → Nat → Option Nat
  | [], acc => some acc
  | c :: cs, acc =>
    if c.isDigit then digitsToNat cs (acc * 10 + (c.toNat - 48)) else none

/-- Python `int(v)` on a string: optional surrounding whitespace, optional
sign, decimal digits; `none` models the `ValueError` raise. -/
def pyParseInt (s : String) : Option Int :=
  match (pyStrip s).data with
  | [] => none
  | '-' :: ds => if ds.isEmpty then none else (digitsToNat ds 0).map (fun n => -(n : Int))
  | '+' :: ds => if ds.isEmpty then none else (digitsToNat ds 0).map (fun n => (n : Int))
  | ds => (digitsToNat ds 0).map (fun n => (n : Int))

/-- `VALID_PRIORITIES` (params.py line 11). -/
def VALID_PRIORITIES : List String := ["P1", "P2", "P3", "P4"]

/-- `VALID_RECURRENCE` (params.py line 12). -/
def VALID_RECURRENCE : List String := ["daily", "weekly", "monthly"]

/-- `VALID_SORT_FIELDS` (params.py line 13). -/
def VALID_SORT_FIELDS : List String :=
  ["created_at", "updated_at", "due_date", "priority", "title"]

/-- `VALID_SORT_ORDERS` (params.py line 14). -/
def VALID_SORT_ORDERS : List String := ["asc", "desc"]

/-- `DATE_PATTERN.match(v)` (params.py line 15): `re.match` anchors at the
start, so the string matches iff it begins with four digits, a dash, two
digits, a dash, and two digits; the optional time group cannot make an
otherwise matching prefix fail. -/
def datePatternOk (s : String) : Bool :=
  match s.data with
  | y1 :: y2 :: y3 :: y4 :: '-' :: m1 :: m2 :: '-' :: d1 :: d2 :: _ =>
    y1.isDigit && y2.isDigit && y3.isDigit && y4.isDigit &&
    m1.isDigit && m2.isDigit && d1.isDigit && d2.isDigit
  | _ => false

/-- The shared `user_id_not_empty` validator (params.py): nonempty after strip. -/
def validUserId (v : String) : Bool :=
  !(pyStrip v).data.isEmpty

/-- The shared `task_id_valid` validator (params.py): `int(v)` succeeds and
the value is positive. -/
def validTaskId (v : String) : Bool :=
  match pyParseInt v with
  | some k => decide (0 < k)
  | none => false

/- ------------------------------------------------------------------
TaskRow model (`backend/models/user.py` lines 15-37) and the TaskRow Store
------------------------------------------------------------------ -/

/-- The Python `Task` SQLModel row (models/user.py lines 15-37), embedded as `TaskRow`, restricted to the columns the MCP layer reads
and writes.  `datetime` columns are abstract ticks (`created_at`,
`updated_at` : `Nat`) or the ISO text they were parsed from (`due_date`). -/
structure TaskRow where
  id : Nat
  user_id : Nat
  title : String
  description : Option String := none
  completed : Bool := false
  priority : String := "P3"
  due_date : Option String := none
  recurrence_rule : Option String := none
  reminder_minutes : Option Int := none
  created_at : Nat := 0
  updated_at : Nat := 0
deriving Repr, DecidableEq

/-- The TaskRow Store: the `task` table plus the tag junction collapsed to
`(task_id, tag name)` pairs, and the id autoincrement counter. -/
structure Store where
  tasks : List TaskRow := []
  task_tags : List (Nat × String) := []
  next_id : Nat := 1
deriving Repr, DecidableEq

/-- Ids in the `task` table are unique (primary-key invariant of the store). -/
def Store.WF (s : Store) : Prop :=
  s.tasks.Pairwise (fun a b => a.id ≠ b.id)

/-- `get_task_by_id_and_user` (crud/task.py lines 161-168): the query filters
by id AND owner, so a foreign task is indistinguishable from a missing one. -/
def get_task_by_id_and_user (s : Store) (task_id user_id : Nat) : Option TaskRow :=
  s.tasks.find? (fun t => t.id == task_id && t.user_id == user_id)

/-- In-place row update of the first matching row, modelling mutation of the
object returned by `.first()` followed by `session.commit()`. -/
def updateFirst (p : TaskRow → Bool) (f : TaskRow → TaskRow) : List TaskRow → List TaskRow
  | [] => []
  | t :: ts => if p t then f t :: ts else t :: updateFirst p f ts

/-- `_sync_tags` (crud/task.py lines 16-39): drop this task''s junction rows,
then link each given name (the per-user `Tag` entity is collapsed to its
name). -/
def sync_tags (s : Store) (task_id : Nat) (tag_names : List String) : Store :=
  { s with task_tags :=
      (s.task_tags.filter (fun l => !(l.1 == task_id))) ++ tag_names.map (fun n => (task_id, n)) }

/-- Insertion step for the name-ordered tag listing. -/
def insertName (n : String) : List String → List String
  | [] => [n]
  | m :: ms => if n ≤ m then n :: m :: ms else m :: insertName n ms

/-- Sort tag names ascending, modelling `order_by(Tag.name)`. -/
def sortNames : List String → List String
  | [] => []
  | n :: ns => insertName n (sortNames ns)

/-- `_get_tags_for_task` (crud/task.py lines 42-50). -/
def get_tags_for_task (s : Store) (task_id : Nat) : List String :=
  sortNames ((s.task_tags.filter (fun l => l.1 == task_id)).map (fun l => l.2))

/- ------------------------------------------------------------------
Tool parameter schemas (`backend/mcp/schemas/params.py`)
------------------------------------------------------------------ -/

/-- `AddTaskParams` raw fields (params.py lines 18-28). -/
structure AddTaskParams where
  user_id : String
  title : String
  description : Option String := none
  priority : Option String := none
  due_date : Option String := none
  tags : Option (List String) := none
  recurrence_rule : Option String := none
  reminder_minutes : Option Int := none
deriving Repr, DecidableEq

/-- The element-wise tag cleaner of `AddTaskParams.tags_valid` (params.py
lines 67-82): strip+lower each tag, empty or over-long tags are errors. -/
def cleanTagsAdd : List String → Except String (List String)
  | [] => .ok []
  | t :: ts =>
    let t' := pyLower (pyStrip t)
    if t'.data.isEmpty then .error "tags"
    else if t'.data.length > 50 then .error "tags"
    else (cleanTagsAdd ts).map (fun rest => t' :: rest)

/-- Pydantic validation of `AddTaskParams`, in field-declaration order; the
error value is the failing field name (what `e.errors()[0]["loc"]` exposes),
and the returned params carry the normalised values the validators return. -/
def validateAddTaskParams (p : AddTaskParams) : Except String AddTaskParams :=
  if !validUserId p.user_id then .error "user_id"
  else if (pyStrip p.title).data.isEmpty then .error "title"
  else if p.title.data.length > 255 then .error "title"
  else if (match p.description with | some d => decide (d.data.length > 1000) | none => false) then .error "description"
  else if (match p.priority with | some pr => !VALID_PRIORITIES.contains pr | none => false) then .error "priority"
  else if (match p.due_date with | some d => !datePatternOk d | none => false) then .error "due_date"
  else
    match (match p.tags with
           | none => Except.ok (none : Option (List String))
           | some ts =>
             if ts.length > 10 then Except.error "tags"
             else (cleanTagsAdd ts).map some) with
    | .error f => .error f
    | .ok tags =>
      if (match p.recurrence_rule with | some r => !VALID_RECURRENCE.contains r | none => false) then .error "recurrence_rule"
      else if (match p.reminder_minutes with | some m => decide (m < 0) | none => false) then .error "reminder_minutes"
      else .ok { p with title := pyStrip p.title, tags := tags }

/-- `ListTasksParams` raw fields (params.py lines 99-112). -/
structure ListTasksParams where
  user_id : String
  search : Option String := none
  priority : Option String := none
  tag : Option String := none
  completed : Option Bool := none
  due_before : Option String := none
  due_after : Option String := none
  sort_by : Option String := none
  sort_order : Option String := none
  page : Option Int := none
  page_size : Option Int := none
deriving Repr, DecidableEq

/-- Pydantic validation of `ListTasksParams` (params.py lines 114-154). -/
def validateListTasksParams (p : ListTasksParams) : Except String ListTasksParams :=
  if !validUserId p.user_id then .error "user_id"
  else if (match p.priority with | some pr => !VALID_PRIORITIES.contains pr | none => false) then .error "priority"
  else if (match p.sort_by with | some f => !VALID_SORT_FIELDS.contains f | none => false) then .error "sort_by"
  else if (match p.sort_order with | some o => !VALID_SORT_ORDERS.contains o | none => false) then .error "sort_order"
  else if (match p.page with | some n => decide (n < 1) | none => false) then .error "page"
  else if (match p.page_size with | some n => decide (n < 1) || decide (n > 100) | none => false) then .error "page_size"
  else .ok p

/-- `CompleteTaskParams` (params.py lines 157-179). -/
structure CompleteTaskParams where
  task_id : String
  user_id : String
deriving Repr, DecidableEq

/-- Pydantic validation of `CompleteTaskParams`. -/
def validateCompleteTaskParams (p : CompleteTaskParams) : Except String CompleteTaskParams :=
  if !validTaskId p.task_id then .error "task_id"
  else if !validUserId p.user_id then .error "user_id"
  else .ok p

/-- `DeleteTaskParams` (params.py lines 182-204). -/
structure DeleteTaskParams where
  task_id : String
  user_id : String
deriving Repr, DecidableEq

/-- Pydantic validation of `DeleteTaskParams`. -/
def validateDeleteTaskParams (p : DeleteTaskParams) : Except String DeleteTaskParams :=
  if !validTaskId p.task_id then .error "task_id"
  else if !validUserId p.user_id then .error "user_id"
  else .ok p

/-- `UpdateTaskParams` raw fields (params.py lines 207-219). -/
structure UpdateTaskParams where
  task_id : String
  user_id : String
  title : Option String := none
  description : Option String := none
  priority : Option String := none
  due_date : Option String := none
  completed : Option Bool := none
  tags : Option (List String) := none
  recurrence_rule : Option String := none
  reminder_minutes : Option Int := none
deriving Repr, DecidableEq

/-- The tag cleaner of `UpdateTaskParams.tags_valid` (params.py line 277):
a comprehension that silently drops empty tags and strips+lowers the rest. -/
def cleanTagsUpdate (ts : List String) : List String :=
  (ts.filter (fun t => !(pyStrip t).data.isEmpty)).map (fun t => pyLower (pyStrip t))

/-- Pydantic validation of `UpdateTaskParams` (params.py lines 221-292). -/
def validateUpdateTaskParams (p : UpdateTaskParams) : Except String UpdateTaskParams :=
  if !validTaskId p.task_id then .error "task_id"
  else if !validUserId p.user_id then .error "user_id"
  else if (match p.title with | some t => (pyStrip t).data.isEmpty || decide (t.data.length > 255) | none => false) then .error "title"
  else if (match p.description with | some d => decide (d.data.length > 1000) | none => false) then .error "description"
  else if (match p.priority with | some pr => !VALID_PRIORITIES.contains pr | none => false) then .error "priority"
  else if (match p.due_date with | some d => !datePatternOk d | none => false) then .error "due_date"
  else if (match p.tags with | some ts => decide (ts.length > 10) | none => false) then .error "tags"
  else if (match p.recurrence_rule with | some r => !VALID_RECURRENCE.contains r | none => false) then .error "recurrence_rule"
  else if (match p.reminder_minutes with | some m => decide (m < 0) | none => false) then .error "reminder_minutes"
  else .ok { p with title := p.title.map pyStrip, tags := p.tags.map cleanTagsUpdate }

/-- `UpdateTaskParams.has_update_fields` (params.py lines 294-305). -/
def has_update_fields (p : UpdateTaskParams) : Bool :=
  p.title.isSome || p.description.isSome || p.priority.isSome || p.due_date.isSome ||
  p.completed.isSome || p.tags.isSome || p.recurrence_rule.isSome || p.reminder_minutes.isSome

/- ------------------------------------------------------------------
Tool response schemas (`backend/mcp/schemas/responses.py`)
------------------------------------------------------------------ -/

/-- `ToolError` (responses.py lines 11-16); the `details` dict is a string
association list. -/
structure ToolError where
  code : String
  message : String
  details : List (String × String) := []
deriving Repr, DecidableEq

/-- `TaskData` (responses.py lines 19-30). -/
structure TaskData where
  id : Nat
  user_id : String
  title : String
  description : Option String
  completed : Bool
  priority : String
  due_date : Option String
  created_at : String
  updated_at : String
deriving Repr, DecidableEq

/-- Rendering of an abstract tick as `datetime.isoformat() + "Z"`. -/
def isoZ (t : Nat) : String :=
  toString t ++ "Z"

/-- `TaskData.from_task` (responses.py lines 32-45): the classmethod takes
exactly a task and a user id — it has NO `tags` parameter. -/
def TaskData.from_task (task : TaskRow) (user_id : String) : TaskData :=
  { id := task.id
    user_id := user_id
    title := task.title
    description := task.description
    completed := task.completed
    priority := task.priority
    due_date := task.due_date
    created_at := isoZ task.created_at
    updated_at := isoZ task.updated_at }

/-- The call expression `TaskData.from_task(task, user_id, tags=tags)` used
by add_task.py line 53, list_tasks.py line 44 and update_task.py line 72.
Since `from_task` (responses.py lines 32-45) accepts only `(task, user_id)`,
Python raises `TypeError` while binding the unexpected keyword argument,
before the method body runs; the `Except.error` is that raise. -/
def TaskData.from_task_with_tags_kwarg (_task : TaskRow) (_user_id : String)
    (_tags : List String) : Except String TaskData :=
  .error "TypeError: from_task() got an unexpected keyword argument \x27tags\x27"

/-- The `ToolResponse` envelope (responses.py lines 62-83) with its payload
variants: `TaskData` dumps, the ad-hoc dict of complete_task.py lines 66-71,
`DeleteTaskData` (responses.py lines 55-59) and `ListTasksData` (responses.py
lines 48-52). -/
inductive ToolData where
  | taskData (td : TaskData)
  | completeData (id : Nat) (title : String) (completed : Bool) (updated_at : String)
  | deleteData (deleted : Bool) (task_id : String)
  | listData (tasks : List TaskData) (total : Nat)
deriving Repr, DecidableEq

/-- `ToolResponse` (responses.py lines 62-70): exactly one of `data`/`error`
is populated by the two constructors below. -/
structure ToolResponse where
  success : Bool
  data : Option ToolData := none
  error : Option ToolError := none
deriving Repr, DecidableEq

/-- `ToolResponse.ok` (responses.py lines 72-75). -/
def ToolResponse.ok (d : ToolData) : ToolResponse :=
  { success := true, data := some d }

/-- `ToolResponse.fail` (responses.py lines 77-83). -/
def ToolResponse.fail (code message : String) (details : List (String × String) := []) : ToolResponse :=
  { success := false, error := some { code := code, message := message, details := details } }

/-- Error code of a response, if any. -/
def ToolResponse.errCode (r : ToolResponse) : Option String :=
  r.error.map (fun e => e.code)

/-- The `completed` entry of a `complete_task` success payload, if any. -/
def ToolResponse.completedFlag (r : ToolResponse) : Option Bool :=
  match r.data with
  | some (.completeData _ _ c _) => some c
  | _ => none

/-- A `task.*` event handed to the Event Sink (`events/emitter.py emit_event`);
tools return the list of events they emitted during the call. -/
structure Event where
  event_type : String
  user_id : Nat
  task_id : Nat
  data : List (String × String) := []
deriving Repr, DecidableEq

/- ------------------------------------------------------------------
CRUD (`backend/mcp/crud/task.py`)
------------------------------------------------------------------ -/

/-- `create_task` (crud/task.py lines 53-76): insert the row (id from the
autoincrement counter, priority defaulted to "P3", completed false, both
timestamps now), sync tags when a nonempty tag list was provided (Python
`if params.tags:` is false for both `None` and `[]`), then commit. -/
def create_task (s : Store) (user_id : Nat) (v : AddTaskParams) (now : Nat) : TaskRow × Store :=
  let task : TaskRow :=
    { id := s.next_id
      user_id := user_id
      title := v.title
      description := v.description
      priority := v.priority.getD "P3"
      due_date := v.due_date
      completed := false
      recurrence_rule := v.recurrence_rule
      reminder_minutes := v.reminder_minutes
      created_at := now
      updated_at := now }
  let s1 : Store := { s with tasks := s.tasks ++ [task], next_id := s.next_id + 1 }
  let s2 : Store :=
    match v.tags with
    | some (t :: ts) => sync_tags s1 task.id (t :: ts)
    | _ => s1
  (task, s2)

/-- `update_task` of the crud module, imported as `crud_update`
(update_task.py line 13; crud/task.py lines 171-197): overwrite exactly the
provided fields, stamp `updated_at`, sync tags when a tag list was provided
(also an empty one), commit, and return the refreshed row. -/
def crud_update (s : Store) (task : TaskRow) (v : UpdateTaskParams) (now : Nat) : TaskRow × Store :=
  let task' : TaskRow :=
    { task with
      title := v.title.getD task.title
      description := match v.description with | some d => some d | none => task.description
      priority := v.priority.getD task.priority
      due_date := match v.due_date with | some d => some d | none => task.due_date
      completed := v.completed.getD task.completed
      recurrence_rule := match v.recurrence_rule with | some r => some r | none => task.recurrence_rule
      reminder_minutes := match v.reminder_minutes with | some m => some m | none => task.reminder_minutes
      updated_at := now }
  let s1 : Store := { s with tasks := updateFirst (fun t => t.id == task.id) (fun _ => task') s.tasks }
  let s2 : Store :=
    match v.tags with
    | some ts => sync_tags s1 task.id ts
    | none => s1
  (task', s2)

/-- `delete_task` of the crud module, imported as `crud_delete`
(delete_task.py line 13; crud/task.py lines 200-204): delete the row by
primary key and commit (junction rows are outside this model). -/
def crud_delete (s : Store) (task : TaskRow) : Store :=
  { s with tasks := s.tasks.filter (fun t => !(t.id == task.id)) }

/-- Row comparison for `sort_by`, modelling `getattr(Task, sort_field, Task.created_at)` (crud/task.py lines 143-149): unknown fields fall back to
`created_at`. -/
def fieldLe (field : String) (a b : TaskRow) : Bool :=
  if field = "updated_at" then decide (a.updated_at ≤ b.updated_at)
  else if field = "due_date" then decide (a.due_date.getD "" ≤ b.due_date.getD "")
  else if field = "priority" then decide (a.priority ≤ b.priority)
  else if field = "title" then decide (a.title ≤ b.title)
  else decide (a.created_at ≤ b.created_at)

/-- Insertion step for `sortTasksBy`. -/
def insertTask (le : TaskRow → TaskRow → Bool) (t : TaskRow) : List TaskRow → List TaskRow
  | [] => [t]
  | u :: us => if le t u then t :: u :: us else u :: insertTask le t us

/-- Sort of the filtered rows by the selected column (`ORDER BY`). -/
def sortTasksBy (le : TaskRow → TaskRow → Bool) : List TaskRow → List TaskRow
  | [] => []
  | t :: ts => insertTask le t (sortTasksBy le ts)

/-- `get_tasks_filtered` (crud/task.py lines 89-158), for the parameters the
validators admit.  The full-text `search_vector @@ plainto_tsquery` filter
runs inside PostgreSQL, outside this repository, so its row predicate is the
explicit `searchPred` argument; date-range comparisons are modelled on the stored ISO strings.  Returns `(page of tasks, total count before pagination)`. -/
def get_tasks_filtered (s : Store) (user_id : Nat) (v : ListTasksParams)
    (searchPred : String → TaskRow → Bool) : List TaskRow × Nat :=
  let q0 := s.tasks.filter (fun t => t.user_id == user_id)
  let q1 := match v.search with | some q => q0.filter (searchPred q) | none => q0
  let q2 := match v.priority with | some pr => q1.filter (fun t => t.priority == pr) | none => q1
  let q3 := match v.completed with | some c => q2.filter (fun t => t.completed == c) | none => q2
  let q4 := match v.tag with
    | some tg => q3.filter (fun t => s.task_tags.any (fun l => l.1 == t.id && l.2 == pyLower (pyStrip tg)))
    | none => q3
  let q5 := match v.due_before with
    | some d => q4.filter (fun t => match t.due_date with | some dd => decide (dd ≤ d) | none => false)
    | none => q4
  let q6 := match v.due_after with
    | some d => q5.filter (fun t => match t.due_date with | some dd => decide (d ≤ dd) | none => false)
    | none => q5
  let total := q6.length
  let field := v.sort_by.getD "created_at"
  let ord := v.sort_order.getD "desc"
  let sorted := if ord = "asc" then sortTasksBy (fieldLe field) q6
                else sortTasksBy (fun a b => fieldLe field b a) q6
  let page := (v.page.getD 1).toNat
  let page_size := (v.page_size.getD 20).toNat
  (((sorted.drop ((page - 1) * page_size)).take page_size), total)

/- ------------------------------------------------------------------
The five MCP tools (`backend/mcp/tools/*.py`)
------------------------------------------------------------------ -/

/-- The validation-failure mapping of add_task.py lines 25-47 and
update_task.py lines 25-47: a priority error becomes `invalid_priority`, a
due-date error `invalid_date`, anything else `invalid_input`. -/
def mapCreateUpdateValFailure (field : String) (failedMsg : String) : ToolResponse :=
  if field = "priority" then
    ToolResponse.fail "invalid_priority" "Priority must be one of: P1, P2, P3, P4"
      [("field", "priority")]
  else if field = "due_date" then
    ToolResponse.fail "invalid_date" "Due date must be in YYYY-MM-DD format"
      [("field", "due_date")]
  else
    ToolResponse.fail "invalid_input" failedMsg [("field", field)]

/-- `add_task` (tools/add_task.py lines 19-71).  The success branch commits
via `create_task` and then evaluates
`TaskData.from_task(task, validated.user_id, tags=tags)` — which raises
`TypeError` (see `TaskData.from_task_with_tags_kwarg`), caught by the
`except Exception` of lines 65-71 as a `processing_error` envelope.  The
`task.created` emission of lines 56-61 sits after that call, so the event
branch is unreachable, but it is kept to mirror the source. -/
def add_task (params : AddTaskParams) (user_id_int : Nat) (s : Store) (now : Nat) :
    ToolResponse × Store × List Event :=
  match validateAddTaskParams params with
  | .error f => (mapCreateUpdateValFailure f "Validation error", s, [])
  | .ok v =>
    let (task, s1) := create_task s user_id_int v now
    let tags := get_tags_for_task s1 task.id
    match TaskData.from_task_with_tags_kwarg task v.user_id tags with
    | .error e =>
      (ToolResponse.fail "processing_error" "Failed to create task" [("error", e)], s1, [])
    | .ok td =>
      (ToolResponse.ok (.taskData td), s1,
        [{ event_type := "task.created", user_id := user_id_int, task_id := task.id,
           data := [("title", task.title), ("priority", task.priority)] }])

/-- Builder of `task_data_list` (list_tasks.py lines 41-44): each iteration
calls `TaskData.from_task(task, validated.user_id, tags=tags)`; the first
task therefore raises, and the exception propagates out of the loop. -/
def buildTaskDataList (s : Store) (uid : String) : List TaskRow → Except String (List TaskData)
  | [] => .ok []
  | t :: rest =>
    match TaskData.from_task_with_tags_kwarg t uid (get_tags_for_task s t.id) with
    | .error e => .error e
    | .ok td => (buildTaskDataList s uid rest).map (fun l => td :: l)

/-- `list_tasks` (tools/list_tasks.py lines 19-61).  On an empty result the
loop body never runs and the envelope is a success with `tasks=[], total=0`
(the extra pagination keywords passed to `ListTasksData` are ignored by
pydantic); on a nonempty result the loop raises and the `except` of lines
55-61 converts it to `processing_error`. -/
def list_tasks (params : ListTasksParams) (user_id_int : Nat) (s : Store)
    (searchPred : String → TaskRow → Bool) : ToolResponse × Store :=
  match validateListTasksParams params with
  | .error f => (ToolResponse.fail "invalid_input" "Validation error" [("field", f)], s)
  | .ok v =>
    let (tasks, total) := get_tasks_filtered s user_id_int v searchPred
    match buildTaskDataList s v.user_id tasks with
    | .error e =>
      (ToolResponse.fail "processing_error" "Failed to retrieve tasks" [("error", e)], s)
    | .ok lst => (ToolResponse.ok (.listData lst total), s)

/-- `complete_task` (tools/complete_task.py lines 19-81): validated lookup
through `get_task_by_id_and_user`; missing or foreign id → `not_found`; an
already-completed task is left untouched (idempotence), otherwise the row is
completed and stamped; the result dict is built from the (refreshed) row.
This tool performs no event emission. -/
def complete_task (params : CompleteTaskParams) (user_id_int : Nat) (s : Store) (now : Nat) :
    ToolResponse × Store :=
  match validateCompleteTaskParams params with
  | .error f => (ToolResponse.fail "invalid_input" "Validation error" [("field", f)], s)
  | .ok v =>
    let task_id := ((pyParseInt v.task_id).getD 0).toNat
    match get_task_by_id_and_user s task_id user_id_int with
    | none => (ToolResponse.fail "not_found" "Task not found" [("task_id", v.task_id)], s)
    | some task =>
      if task.completed then
        (ToolResponse.ok (.completeData task.id task.title task.completed (isoZ task.updated_at)), s)
      else
        let task' := { task with completed := true, updated_at := now }
        let s' := { s with
          tasks := updateFirst (fun t => t.id == task_id && t.user_id == user_id_int)
            (fun t => { t with completed := true, updated_at := now }) s.tasks }
        (ToolResponse.ok (.completeData task'.id task'.title task'.completed (isoZ task'.updated_at)), s')

/-- `delete_task` (tools/delete_task.py lines 18-68): validated lookup,
`not_found` on missing/foreign id, otherwise `crud_delete` removes the row
permanently and the envelope carries `DeleteTaskData(deleted=True, task_id)`.
The tool body contains no `emit_event` call (it does not even import the
emitter), so the returned event list is always empty. -/
def delete_task (params : DeleteTaskParams) (user_id_int : Nat) (s : Store) :
    ToolResponse × Store × List Event :=
  match validateDeleteTaskParams params with
  | .error f => (ToolResponse.fail "invalid_input" "Validation error" [("field", f)], s, [])
  | .ok v =>
    let task_id := ((pyParseInt v.task_id).getD 0).toNat
    match get_task_by_id_and_user s task_id user_id_int with
    | none => (ToolResponse.fail "not_found" "Task not found" [("task_id", v.task_id)], s, [])
    | some task =>
      (ToolResponse.ok (.deleteData true v.task_id), crud_delete s task, [])

/-- `update_task` (tools/update_task.py lines 19-89): validation with the
specific error-code mapping, the `has_update_fields` gate, validated lookup,
then `crud_update` commits the mutation — after which line 72 evaluates
`TaskData.from_task(updated_task, validated.user_id, tags=tags)`, which
raises `TypeError`; the `except` of lines 83-89 converts it to
`processing_error`.  The `task.updated` emission of lines 75-79 comes after
that call and is therefore unreachable on this path, but is kept to mirror
the source. -/
def update_task (params : UpdateTaskParams) (user_id_int : Nat) (s : Store) (now : Nat) :
    ToolResponse × Store × List Event :=
  match validateUpdateTaskParams params with
  | .error f => (mapCreateUpdateValFailure f "Validation error", s, [])
  | .ok v =>
    if !has_update_fields v then
      (ToolResponse.fail "invalid_input" "At least one field must be provided for update" [], s, [])
    else
      let task_id := ((pyParseInt v.task_id).getD 0).toNat
      match get_task_by_id_and_user s task_id user_id_int with
      | none => (ToolResponse.fail "not_found" "Task not found" [("task_id", v.task_id)], s, [])
      | some task =>
        let (task', s1) := crud_update s task v now
        let tags := get_tags_for_task s1 task'.id
        match TaskData.from_task_with_tags_kwarg task' v.user_id tags with
        | .error e =>
          (ToolResponse.fail "processing_error" "Failed to update task" [("error", e)], s1, [])
        | .ok td =>
          (ToolResponse.ok (.taskData td), s1,
            [{ event_type := "task.updated", user_id := user_id_int, task_id := task_id,
               data := [("title", task'.title), ("priority", task'.priority)] }])

/- ------------------------------------------------------------------
Lexical classifiers (`backend/agent/handlers/intent.py` lines 130-209)
------------------------------------------------------------------ -/

/-- The confirmation vocabulary of `is_confirmation` (intent.py lines 139-146). -/
def confirmations_vocab : List String :=
  ["yes", "yes delete", "confirm", "do it", "go ahead", "ok", "okay",
   "haan", "haan delete", "ji", "ji haan", "theek hai", "kar do",
   "ہاں", "جی ہاں", "ٹھیک ہے"]

/-- `is_confirmation` (intent.py lines 130-147): exact membership of the
lowercased, stripped message. -/
def is_confirmation (message : String) : Bool :=
  confirmations_vocab.contains (pyStrip (pyLower message))

/-- The greeting vocabulary of `is_greeting` (intent.py lines 179-186). -/
def greetings_vocab : List String :=
  ["hi", "hello", "hey", "good morning", "good evening", "good afternoon",
   "assalam", "assalam o alaikum", "salam", "aoa",
   "السلام علیکم", "سلام"]

/-- `is_greeting` (intent.py lines 170-188): exact membership OR any
vocabulary entry occurring as a substring of the message. -/
def is_greeting (message : String) : Bool :=
  let msg_lower := pyStrip (pyLower message)
  greetings_vocab.contains msg_lower || greetings_vocab.any (fun g => strContains msg_lower g)

/-- The thanks vocabulary of `is_thanks` (intent.py lines 200-207). -/
def thanks_vocab : List String :=
  ["thanks", "thank you", "thank u", "thx", "ty",
   "shukriya", "shukria", "meherbani",
   "شکریہ", "مہربانی"]

/-- `is_thanks` (intent.py lines 191-209): exact membership OR any
vocabulary entry occurring as a substring of the message. -/
def is_thanks (message : String) : Bool :=
  let msg_lower := pyStrip (pyLower message)
  thanks_vocab.contains msg_lower || thanks_vocab.any (fun t => strContains msg_lower t)

/- ------------------------------------------------------------------
Templates and error rendering (`backend/agent/templates/confirmations.py`,
`backend/agent/handlers/response.py`, `backend/agent/errors.py`)
------------------------------------------------------------------ -/

/-- Replace every occurrence of `pat` by `rep` in a character list (the
effect of `str.format` on a template whose only placeholder is `pat`). -/
def replaceChars (pat rep : List Char) : List Char → List Char
  | [] => []
  | c :: rest =>
    if !pat.isEmpty && charsStartWith pat (c :: rest) then
      rep ++ replaceChars pat rep (rest.drop (pat.length - 1))
    else
      c :: replaceChars pat rep rest
termination_by l => l.length
decreasing_by
  · simp only [List.length_cons]
    have := List.length_drop (pat.length - 1) rest
    omega
  · simp only [List.length_cons]
    omega

/-- Python `template.format(key=value)` for a single named placeholder. -/
def pyFormatKey (template key value : String) : String :=
  String.mk (replaceChars ("\x7b" ++ key ++ "\x7d").data value.data template.data)

/-- The `templates.get(lang, templates.get("en", ""))` lookup of
`get_template` (confirmations.py line 122). -/
def get_template_in (templates : List (String × String)) (lang : String) : String :=
  (templates.lookup lang).getD ((templates.lookup "en").getD "")

/-- `TASK_DELETED_TEMPLATES` (confirmations.py lines 39-43). -/
def TASK_DELETED_TEMPLATES : List (String × String) :=
  [("en", "Done. I\x27ve deleted the task \"{title}\"."),
   ("ur", "ہو گیا۔ \"{title}\" والا ٹاسک حذف کر دیا گیا ہے۔"),
   ("roman_ur", "Ho gaya. \"{title}\" wala task delete kar diya gaya hai.")]

/-- `TASK_NOT_FOUND_TEMPLATES` (confirmations.py lines 53-57). -/
def TASK_NOT_FOUND_TEMPLATES : List (String × String) :=
  [("en", "I couldn\x27t find that task. Can you double-check the details?"),
   ("ur", "مجھے یہ ٹاسک نہیں ملا۔ براہِ کرم تفصیل چیک کریں۔"),
   ("roman_ur", "Mujhe yeh task nahi mila. Zara details check kar lein.")]

/-- `GREETING_TEMPLATES` (confirmations.py lines 74-78). -/
def GREETING_TEMPLATES : List (String × String) :=
  [("en", "Hi! I\x27m here to help with your tasks. What would you like to do?"),
   ("ur", "السلام علیکم! میں آپ کے ٹاسکس میں مدد کے لیے حاضر ہوں۔ کیا کروں؟"),
   ("roman_ur", "Assalam o Alaikum! Main aap ke tasks mein madad ke liye hazir hoon. Kya karoon?")]

/-- `THANKS_TEMPLATES` (confirmations.py lines 81-85). -/
def THANKS_TEMPLATES : List (String × String) :=
  [("en", "You\x27re welcome! Let me know if you need anything else."),
   ("ur", "خوش آمدید! اگر کچھ اور چاہیے تو بتائیں۔"),
   ("roman_ur", "Khush amdeed! Agar kuch aur chahiye to batayein.")]

/-- `ERROR_MESSAGES` (errors.py lines 9-35). -/
def ERROR_MESSAGES : List (String × List (String × String)) :=
  [("not_found",
    [("en", "I couldn\x27t find that task. Can you double-check the details?"),
     ("ur", "مجھے یہ ٹاسک نہیں ملا۔ براہِ کرم تفصیل چیک کریں۔"),
     ("roman_ur", "Mujhe yeh task nahi mila. Zara details check kar lein.")]),
   ("validation_error",
    [("en", "Could you provide more details? I need a bit more information."),
     ("ur", "کیا آپ مزید تفصیلات دے سکتے ہیں؟"),
     ("roman_ur", "Kya aap mazeed details de sakte hain?")]),
   ("database_error",
    [("en", "I\x27m having a bit of trouble right now. Please try again in a moment."),
     ("ur", "ابھی کچھ مسئلہ ہے۔ براہِ کرم دوبارہ کوشش کریں۔"),
     ("roman_ur", "Abhi kuch masla hai. Please dobara try karein.")]),
   ("timeout",
    [("en", "That took longer than expected. Let\x27s try again."),
     ("ur", "یہ توقع سے زیادہ وقت لگا۔ دوبارہ کوشش کرتے ہیں۔"),
     ("roman_ur", "Yeh expected se zyada time laga. Dobara try karte hain.")]),
   ("unknown",
    [("en", "Something went wrong. Please try again."),
     ("ur", "کچھ غلط ہو گیا۔ براہِ کرم دوبارہ کوشش کریں۔"),
     ("roman_ur", "Kuch galat ho gaya. Please dobara try karein.")])]

/-- `to_friendly_message` (errors.py lines 38-63).  None of the messages
contains a format placeholder, so the optional context interpolation of
lines 57-61 is the identity and is omitted. -/
def to_friendly_message (error_code lang : String) : String :=
  let messages := (ERROR_MESSAGES.lookup error_code).getD
    ((ERROR_MESSAGES.lookup "unknown").getD [])
  (messages.lookup lang).getD ((messages.lookup "en").getD "")

/-- `map_tool_error` (errors.py lines 66-83). -/
def map_tool_error (tool_response : ToolResponse) (lang : String) : String :=
  match tool_response.error with
  | none => ""
  | some e => to_friendly_message e.code lang

/-- `format_error` (response.py lines 128-148). -/
def format_error (error_code lang : String) : String :=
  if error_code = "not_found" then get_template_in TASK_NOT_FOUND_TEMPLATES lang
  else to_friendly_message error_code lang

/-- `format_task_deleted` (response.py lines 80-94), at the dict-shaped
argument the runner passes (the pending task, which carries a title). -/
def format_task_deleted (task_data : TaskRef) (lang : String) : String :=
  pyFormatKey (get_template_in TASK_DELETED_TEMPLATES lang) "title" task_data.title

/-- `format_greeting` (response.py lines 182-191). -/
def format_greeting (lang : String) : String :=
  get_template_in GREETING_TEMPLATES lang

/-- `format_thanks` (response.py lines 194-203). -/
def format_thanks (lang : String) : String :=
  get_template_in THANKS_TEMPLATES lang

/- ------------------------------------------------------------------
The agent runner (`backend/agent/runner.py`, `backend/agent/context.py`)
------------------------------------------------------------------ -/

/-- `MAX_ITERATIONS` guardrail constant (runner.py line 42). -/
def MAX_ITERATIONS : Nat := 10

/-- `TIMEOUT_SECONDS` guardrail constant (runner.py line 43). -/
def TIMEOUT_SECONDS : Nat := 30

/-- The `self._pending_delete` dict (runner.py lines 437-441): the matched
task, the requesting user id and the language of the prompting turn. -/
structure PendingConfirmation where
  task : TaskRef
  user_id : String
  lang : String
deriving Repr, DecidableEq

/-- `ToolCallRecord` (context.py lines 51-57); `parameters` is the params
dict with `user_id` stripped (runner.py line 614), and the wall-clock
`duration_ms` is abstracted to 0. -/
structure ToolCallRecord where
  tool_name : String
  parameters : List (String × String)
  result : ToolResponse
  duration_ms : Nat := 0
deriving Repr, DecidableEq

/-- `AgentResult` (context.py lines 60-67). -/
structure AgentResult where
  success : Bool
  response : String
  tool_calls : List ToolCallRecord := []
  error : Option String := none
  language : String := "en"
deriving Repr, DecidableEq

/-- `_call_tool` (runner.py lines 580-620) for the `delete_task` invocation
of `_handle_delete_confirmation` (runner.py lines 463-468): dispatch through
the MCP server to the delete tool, then append a record whose parameters
have `user_id` stripped.  Returns the tool response, the store after the
call, and the extended record list. -/
def call_tool_delete (pending_task_id : Nat) (user_id_str : String) (user_id_int : Nat)
    (s : Store) (tool_calls : List ToolCallRecord) :
    ToolResponse × Store × List ToolCallRecord :=
  let params : DeleteTaskParams := { task_id := toString pending_task_id, user_id := user_id_str }
  let (resp, s', _events) := delete_task params user_id_int s
  (resp, s',
   tool_calls ++ [{ tool_name := "delete_task",
                    parameters := [("task_id", toString pending_task_id)],
                    result := resp }])

/-- The cancellation messages of `_handle_delete_confirmation`
(runner.py lines 486-490). -/
def cancel_msg : List (String × String) :=
  [("en", "Okay, I won\x27t delete that task."),
   ("ur", "ٹھیک ہے، میں وہ ٹاسک نہیں حذف کروں گا۔"),
   ("roman_ur", "Theek hai, main wo task delete nahi karunga.")]

/-- `_handle_delete_confirmation` (runner.py lines 450-496), after the
caller has already cleared `self._pending_delete` (line 460): on a
confirmation, call `delete_task` on the pending task and render the deleted
or failed message; otherwise render the cancellation message.  Returns the
turn result and the store after the turn. -/
def handle_delete_confirmation (pending : PendingConfirmation) (message : String)
    (lang : String) (user_id_str : String) (user_id_int : Nat) (s : Store)
    (tool_calls : List ToolCallRecord) : AgentResult × Store :=
  if is_confirmation message then
    let (result, s', tool_calls') :=
      call_tool_delete pending.task.id user_id_str user_id_int s tool_calls
    if result.success then
      ({ success := true, response := format_task_deleted pending.task lang,
         tool_calls := tool_calls', language := lang }, s')
    else
      ({ success := false, response := map_tool_error result lang,
         tool_calls := tool_calls', language := lang }, s')
  else
    ({ success := true, response := get_template_in cancel_msg lang,
       tool_calls := tool_calls, language := lang }, s)

/-- `_process_message` (runner.py lines 118-224).  The embedding carries the
cross-turn `_pending_delete` slot explicitly: the function consumes the
current slot and returns the next one.  The branches are in source order:
greeting (line 142), thanks (line 151), pending delete confirmation
(line 160), and otherwise the Idle-state keyword routing of lines 165-224,
which no claim below exercises and which is therefore the explicit
`idle` argument (it may set a new pending confirmation). -/
def process_message (pending : Option PendingConfirmation) (message : String)
    (user_id_str : String) (user_id_int : Nat) (s : Store)
    (idle : String → Store → AgentResult × Option PendingConfirmation × Store) :
    AgentResult × Option PendingConfirmation × Store :=
  let lang := detect_language message
  if is_greeting message then
    ({ success := true, response := format_greeting lang, tool_calls := [], language := lang },
     pending, s)
  else if is_thanks message then
    ({ success := true, response := format_thanks lang, tool_calls := [], language := lang },
     pending, s)
  else
    match pending with
    | some p =>
      let (r, s') := handle_delete_confirmation p message lang user_id_str user_id_int s []
      (r, none, s')
    | none => idle message s

/-- Outcome of awaiting `_process_message` under `asyncio.wait_for`
(runner.py lines 86-92): either the dispatch completed with its result, or
`TimeoutError` was raised after 30 seconds, or some other exception escaped.
In the two exceptional cases the carried record list is the content of the
shared `tool_calls` list at that moment — exactly the records `_call_tool`
appended for the tool calls that had already completed (runner.py lines
598-617 append the record after the synchronous `call` returns). -/
inductive DispatchOutcome where
  | completed (r : AgentResult) (pending : Option PendingConfirmation) (s : Store)
  | timedOut (tool_calls : List ToolCallRecord)
  | raised (exn : String) (tool_calls : List ToolCallRecord)
deriving Repr

/-- `AgentRunner.run` (runner.py lines 69-116): the try/except around the
dispatch.  On `TimeoutError` the failure result carries error code
"timeout", the language detected from the input message, and the already
completed tool calls; on any other exception the same shape with the
exception text as `error` and the "unknown" rendering. -/
def AgentRunner.run (message : String) (outcome : DispatchOutcome) : AgentResult :=
  match outcome with
  | .completed r _ _ => r
  | .timedOut tool_calls =>
    let lang := detect_language message
    { success := false, response := format_error "timeout" lang,
      tool_calls := tool_calls, error := some "timeout", language := lang }
  | .raised e tool_calls =>
    let lang := detect_language message
    { success := false, response := format_error "unknown" lang,
      tool_calls := tool_calls, error := some e, language := lang }

/- ==================================================================
Helper lemmas
================================================================== -/

/-- In a task-table slice with pairwise-distinct ids, the ownership query of
`get_task_by_id_and_user` finds exactly the given member row. -/
theorem find_owned_of_unique_id (l : List TaskRow) (t : TaskRow) (tid uid : Nat)
    (hW : l.Pairwise (fun a b => a.id ≠ b.id)) (hmem : t ∈ l)
    (hid : t.id = tid) (huser : t.user_id = uid) :
    l.find? (fun x => x.id == tid && x.user_id == uid) = some t := by
  induction l with
  | nil => cases hmem
  | cons a l ih =>
    rcases List.mem_cons.mp hmem with h | h
    · subst h
      have hpt : (t.id == tid && t.user_id == uid) = true := by simp [hid, huser]
      simp [List.find?_cons, hpt]
    · have hane : a.id ≠ t.id := (List.pairwise_cons.mp hW).1 t h
      have hpa : (a.id == tid && a.user_id == uid) = false := by
        rcases h1 : (a.id == tid) with _ | _
        · simp
        · exact absurd ((beq_iff_eq.mp h1).trans hid.symm) hane
      simp only [List.find?_cons, hpa]
      exact ih (List.pairwise_cons.mp hW).2 h

/-- After `updateFirst`, the same query finds the rewritten row, provided
the rewrite preserves the predicate. -/
theorem find?_updateFirst_of_pos (p : TaskRow → Bool) (f : TaskRow → TaskRow)
    (l : List TaskRow) (t : TaskRow)
    (hf : p (f t) = true) (h : l.find? p = some t) :
    (updateFirst p f l).find? p = some (f t) := by
  induction l with
  | nil => simp [List.find?] at h
  | cons a l ih =>
    rcases ha : p a with _ | _
    · simp only [List.find?_cons, ha] at h
      simp only [updateFirst, ha, Bool.false_eq_true, if_false, List.find?_cons]
      exact ih h
    · simp only [List.find?_cons, ha] at h
      injection h with h
      subst h
      simp only [updateFirst, ha, if_true]
      simp [List.find?_cons, hf]

/-- The scan loop short-circuits on the unique exact title hit. -/
theorem matchScan_exact_unique (ql : String) (qw : List String)
    (l : List TaskRef) (t : TaskRef)
    (hmem : t ∈ l) (ht : pyLower t.title = ql)
    (huniq : ∀ u ∈ l, pyLower u.title = ql → u = t) :
    matchScan ql qw l = (some t, [t]) := by
  induction l with
  | nil => cases hmem
  | cons a l ih =>
    by_cases ha : pyLower a.title = ql
    · have hat : a = t := huniq a (List.mem_cons_self a l) ha
      subst hat
      simp [matchScan, ha]
    · have hmem' : t ∈ l := by
        rcases List.mem_cons.mp hmem with h | h
        · exact absurd (h ▸ ht) ha
        · exact h
      have ih' := ih hmem' (fun u hu hq => huniq u (List.mem_cons_of_mem a hu) hq)
      simp [matchScan, ha, ih']

/-- With no exact title hit anywhere, the scan loop accumulates, in task
order, every task qualifying by the substring tier OR the word-overlap tier. -/
theorem matchScan_no_exact (ql : String) (qw : List String) (l : List TaskRef)
    (hno : ∀ u ∈ l, pyLower u.title ≠ ql) :
    matchScan ql qw l =
      (none, l.filter (fun u => substringQual ql u || overlapQual qw u)) := by
  induction l with
  | nil => simp [matchScan]
  | cons a l ih =>
    have ha : ¬ pyLower a.title = ql := hno a (List.mem_cons_self a l)
    have ih' := ih (fun u hu => hno u (List.mem_cons_of_mem a hu))
    by_cases hs : substringQual ql a = true
    · simp [matchScan, ha, hs, ih', List.filter_cons]
    · by_cases ho : overlapQual qw a = true
      · simp [matchScan, ha, hs, ho, ih', List.filter_cons]
      · simp [matchScan, ha, hs, ho, ih', List.filter_cons]

/- ==================================================================
Claim theorems
================================================================== -/

/-- C9 (counterexample): the empty message contains only Arabic-script
characters and whitespace vacuously, yet `detect_language` returns "en",
not "ur" — the boundary case asserted by the claim fails on the code
(language.py falls through to the default when no character matches). -/
theorem detect_language_empty_message_counterexample :
    (∀ c ∈ ("" : String).data, isArabicChar c = true ∨ c.isWhitespace = true) ∧
    detect_language "" = "en" ∧ detect_language "" ≠ "ur" := by
  refine ⟨?_, by decide, by decide⟩
  intro c hc
  simp at hc

/-- C9 (amended): every message that consists of Arabic-script characters
and whitespace AND contains at least one Arabic-script character is
classified "ur" by `detect_language`. -/
theorem detect_language_arabic_script_ur (message : String)
    (_hall : ∀ c ∈ message.data, isArabicChar c = true ∨ c.isWhitespace = true)
    (hsome : ∃ c ∈ message.data, isArabicChar c = true) :
    detect_language message = "ur" := by
  have hany : message.data.any isArabicChar = true := List.any_eq_true.mpr hsome
  simp [detect_language, hany]

/-- C9 (witness): the amended theorem applied to the Urdu message "ہاں". -/
theorem detect_language_arabic_script_ur_witness :
    detect_language "ہاں" = "ur" :=
  detect_language_arabic_script_ur "ہاں" (by decide) (by decide)

/-- C4: when the per-turn dispatch is cut off by the 30-second
`asyncio.wait_for` (the `timedOut` outcome), `AgentRunner.run` returns a
failure result with error code "timeout", the language detected from the
input message by `detect_language` (not a fixed default), and exactly the
tool-call records that had been appended for completed calls before expiry. -/
theorem run_timeout_result_shape (message : String) (tool_calls : List ToolCallRecord) :
    (AgentRunner.run message (.timedOut tool_calls)).success = false ∧
    (AgentRunner.run message (.timedOut tool_calls)).error = some "timeout" ∧
    (AgentRunner.run message (.timedOut tool_calls)).language = detect_language message ∧
    (AgentRunner.run message (.timedOut tool_calls)).tool_calls = tool_calls ∧
    (AgentRunner.run message (.timedOut tool_calls)).response =
      format_error "timeout" (detect_language message) := by
  exact ⟨rfl, rfl, rfl, rfl, rfl⟩

/-- C5 (counterexample): the claim quantifies over every query whose
trimmed, lowercased form equals the lowercased title of exactly one task;
the empty query with an empty-titled task satisfies that hypothesis, yet
`match_task_by_title` returns `(none, [])` because of the `not query` early
return (intent.py line 28), not the task as unique match. -/
theorem match_exact_empty_query_counterexample :
    (∀ u ∈ [({ id := 1, title := "" } : TaskRef)],
       pyLower u.title = pyStrip (pyLower "")) ∧
    match_task_by_title "" [{ id := 1, title := "" }] = (none, []) ∧
    match_task_by_title "" [{ id := 1, title := "" }] ≠
      (some { id := 1, title := "" }, [{ id := 1, title := "" }]) := by
  refine ⟨?_, by decide, by decide⟩
  intro u hu
  simp only [List.mem_singleton] at hu
  subst hu
  decide

/-- C5 (amended): for every NONEMPTY query whose trimmed, lowercased form
equals the lowercased title of exactly one task in the list,
`match_task_by_title` returns that task as the unique match with candidate
list `[task]`, regardless of how the other tasks fare on the substring or
word-overlap tiers. -/
theorem match_exact_unique_nonempty_query (query : String) (tasks : List TaskRef)
    (t : TaskRef)
    (hq : query.data ≠ [])
    (hmem : t ∈ tasks)
    (ht : pyLower t.title = pyStrip (pyLower query))
    (huniq : ∀ u ∈ tasks, pyLower u.title = pyStrip (pyLower query) → u = t) :
    match_task_by_title query tasks = (some t, [t]) := by
  have hne : tasks ≠ [] := by
    rintro rfl
    cases hmem
  have hscan := matchScan_exact_unique (pyStrip (pyLower query))
    (pySet (pyWords (pyStrip (pyLower query)))) tasks t hmem ht huniq
  simp [match_task_by_title, hscan, hne, hq]

/-- C5 (witness): the amended theorem applied to the query "Buy Milk" over a
list where other tasks overlap on words. -/
theorem match_exact_unique_nonempty_query_witness :
    match_task_by_title "Buy Milk" [{ id := 1, title := "buy bread" }, { id := 2, title := "buy milk" }]
      = (some { id := 2, title := "buy milk" }, [{ id := 2, title := "buy milk" }]) :=
  match_exact_unique_nonempty_query "Buy Milk"
    [{ id := 1, title := "buy bread" }, { id := 2, title := "buy milk" }]
    { id := 2, title := "buy milk" }
    (by decide) (by decide) (by decide)
    (by decide)

/-- C6 (counterexample): query "buy milk" against a task qualifying only by
word overlap ("fresh milk jugs") and a task qualifying by substring
("buy milk today"): although the substring tier is nonempty, the candidate
list still contains the overlap-only task, so the tiers are not
first-tier-wins — the loop of intent.py lines 37-55 accumulates both tiers
into one list. -/
theorem match_candidates_tier_mix_counterexample :
    (∀ u ∈ [({ id := 1, title := "fresh milk jugs" } : TaskRef), { id := 2, title := "buy milk today" }],
       pyLower u.title ≠ pyStrip (pyLower "buy milk")) ∧
    substringQual (pyStrip (pyLower "buy milk")) { id := 2, title := "buy milk today" } = true ∧
    substringQual (pyStrip (pyLower "buy milk")) { id := 1, title := "fresh milk jugs" } = false ∧
    overlapQual (pySet (pyWords (pyStrip (pyLower "buy milk")))) { id := 1, title := "fresh milk jugs" } = true ∧
    (match_task_by_title "buy milk" [{ id := 1, title := "fresh milk jugs" }, { id := 2, title := "buy milk today" }]).2
      = [{ id := 1, title := "fresh milk jugs" }, { id := 2, title := "buy milk today" }] := by
  refine ⟨?_, by decide, by decide, by decide, by decide⟩
  intro u hu
  rcases List.mem_cons.mp hu with h | h
  · subst h; decide
  · simp only [List.mem_singleton] at h
    subst h; decide

/-- C6 (amended): with a nonempty query and no exact title match anywhere,
the candidate list of `match_task_by_title` is the tasks qualifying by the
substring tier OR the word-overlap tier, in task order — the substring tier
does not suppress word-overlap candidates (only the exact tier
short-circuits). -/
theorem match_candidates_accumulate_both_tiers (query : String) (tasks : List TaskRef)
    (hq : query.data ≠ [])
    (hno : ∀ u ∈ tasks, pyLower u.title ≠ pyStrip (pyLower query)) :
    (match_task_by_title query tasks).2 =
      tasks.filter (fun u => substringQual (pyStrip (pyLower query)) u ||
        overlapQual (pySet (pyWords (pyStrip (pyLower query)))) u) := by
  by_cases hts : tasks = []
  · subst hts
    simp [match_task_by_title]
  · have hscan := matchScan_no_exact (pyStrip (pyLower query))
      (pySet (pyWords (pyStrip (pyLower query)))) tasks hno
    rcases hms : tasks.filter (fun u => substringQual (pyStrip (pyLower query)) u ||
        overlapQual (pySet (pyWords (pyStrip (pyLower query)))) u) with _ | ⟨m, _ | ⟨m2, rest⟩⟩ <;>
      simp [match_task_by_title, hscan, hms, hts, hq]

/-- C6 (witness): the amended theorem applied to the counterexample inputs:
the candidate list is exactly the substring hit plus the overlap hit. -/
theorem match_candidates_accumulate_both_tiers_witness :
    (match_task_by_title "buy milk" [{ id := 1, title := "fresh milk jugs" }, { id := 2, title := "buy milk today" }]).2
      = List.filter (fun u => substringQual (pyStrip (pyLower "buy milk")) u ||
          overlapQual (pySet (pyWords (pyStrip (pyLower "buy milk")))) u)
          [{ id := 1, title := "fresh milk jugs" }, { id := 2, title := "buy milk today" }] :=
  match_candidates_accumulate_both_tiers "buy milk"
    [{ id := 1, title := "fresh milk jugs" }, { id := 2, title := "buy milk today" }]
    (by decide)
    (by
      intro u hu
      rcases List.mem_cons.mp hu with h | h
      · subst h; decide
      · simp only [List.mem_singleton] at h
        subst h; decide)

/-- C2: for valid parameters whose task id names an existing task owned by a
different user than the caller, `complete_task`, `delete_task` and
`update_task` all return the `not_found` failure envelope with no data and
leave the store untouched (and emit nothing): the ownership filter of
`get_task_by_id_and_user` makes the foreign row invisible. -/
theorem cross_user_tools_not_found
    (task_id_str user_id_str : String) (tid : Int) (uid now : Nat) (s : Store)
    (pu vu : UpdateTaskParams)
    (hparse : pyParseInt task_id_str = some tid) (hpos : 0 < tid)
    (huid : validUserId user_id_str = true)
    (_hexists : ∃ x ∈ s.tasks, x.id = tid.toNat)
    (hforeign : ∀ x ∈ s.tasks, x.id = tid.toNat → x.user_id ≠ uid)
    (hvu : validateUpdateTaskParams pu = .ok vu)
    (hvut : vu.task_id = task_id_str)
    (hvuf : has_update_fields vu = true) :
    complete_task { task_id := task_id_str, user_id := user_id_str } uid s now =
      (ToolResponse.fail "not_found" "Task not found" [("task_id", task_id_str)], s) ∧
    delete_task { task_id := task_id_str, user_id := user_id_str } uid s =
      (ToolResponse.fail "not_found" "Task not found" [("task_id", task_id_str)], s, []) ∧
    update_task pu uid s now =
      (ToolResponse.fail "not_found" "Task not found" [("task_id", task_id_str)], s, []) ∧
    (ToolResponse.fail "not_found" "Task not found" [("task_id", task_id_str)]).data = none := by
  have hvt : validTaskId task_id_str = true := by
    simp [validTaskId, hparse, hpos]
  have hfind : s.tasks.find? (fun x => x.id == tid.toNat && x.user_id == uid) = none := by
    apply List.find?_eq_none.mpr
    intro x hx
    simp only [Bool.and_eq_true, beq_iff_eq]
    rintro ⟨h1, h2⟩
    exact hforeign x hx h1 h2
  refine ⟨?_, ?_, ?_, rfl⟩
  · simp [complete_task, validateCompleteTaskParams, hvt, huid, hparse,
      get_task_by_id_and_user, hfind]
  · simp [delete_task, validateDeleteTaskParams, hvt, huid, hparse,
      get_task_by_id_and_user, hfind]
  · simp [update_task, hvu, hvuf, hvut, hparse, get_task_by_id_and_user, hfind]

/-- C2 (witness): the theorem applied to a two-user store where task 7
belongs to user 2 and the caller is user 1 (the update params rename the
task, so `has_update_fields` holds). -/
theorem cross_user_tools_not_found_witness :
    complete_task { task_id := "7", user_id := "1" } 1
        { tasks := [{ id := 7, user_id := 2, title := "their secret" }], next_id := 8 } 5 =
      (ToolResponse.fail "not_found" "Task not found" [("task_id", "7")],
       { tasks := [{ id := 7, user_id := 2, title := "their secret" }], next_id := 8 }) ∧
    delete_task { task_id := "7", user_id := "1" } 1
        { tasks := [{ id := 7, user_id := 2, title := "their secret" }], next_id := 8 } =
      (ToolResponse.fail "not_found" "Task not found" [("task_id", "7")],
       { tasks := [{ id := 7, user_id := 2, title := "their secret" }], next_id := 8 }, []) ∧
    update_task { task_id := "7", user_id := "1", title := some "stolen" } 1
        { tasks := [{ id := 7, user_id := 2, title := "their secret" }], next_id := 8 } 5 =
      (ToolResponse.fail "not_found" "Task not found" [("task_id", "7")],
       { tasks := [{ id := 7, user_id := 2, title := "their secret" }], next_id := 8 }, []) ∧
    (ToolResponse.fail "not_found" "Task not found" [("task_id", "7")]).data = none := by
  have h := cross_user_tools_not_found "7" "1" 7 1 5
    { tasks := [{ id := 7, user_id := 2, title := "their secret" }], next_id := 8 }
    { task_id := "7", user_id := "1", title := some "stolen" }
    { task_id := "7", user_id := "1", title := some "stolen" }
    (by decide) (by decide) (by decide)
    ⟨{ id := 7, user_id := 2, title := "their secret" }, by decide, by decide⟩
    (by decide) rfl rfl (by decide)
  exact h

/-- C3: `complete_task` is idempotent — on a store with unique task ids and
a task owned by the caller, two successive calls both return success with
`completed=true` in the payload, and the second call leaves the store
exactly as the first call left it. -/
theorem complete_task_idempotent
    (pc : CompleteTaskParams) (tid : Int) (uid now1 now2 : Nat)
    (s : Store) (t : TaskRow)
    (hW : s.WF)
    (hparse : pyParseInt pc.task_id = some tid) (hpos : 0 < tid)
    (huid : validUserId pc.user_id = true)
    (hmem : t ∈ s.tasks) (hid : t.id = tid.toNat) (huser : t.user_id = uid) :
    (complete_task pc uid s now1).1.success = true ∧
    (complete_task pc uid s now1).1.completedFlag = some true ∧
    (complete_task pc uid (complete_task pc uid s now1).2 now2).1.success = true ∧
    (complete_task pc uid (complete_task pc uid s now1).2 now2).1.completedFlag = some true ∧
    (complete_task pc uid (complete_task pc uid s now1).2 now2).2 =
      (complete_task pc uid s now1).2 := by
  have hvt : validTaskId pc.task_id = true := by
    simp [validTaskId, hparse, hpos]
  have hval : validateCompleteTaskParams pc = .ok pc := by
    simp [validateCompleteTaskParams, hvt, huid]
  have hfind : s.tasks.find? (fun x => x.id == tid.toNat && x.user_id == uid) = some t :=
    find_owned_of_unique_id s.tasks t tid.toNat uid hW hmem hid huser
  rcases hc : t.completed with _ | _
  · -- first call mutates the row; the second call sees the completed row
    have hfind2 :
        (updateFirst (fun x => x.id == tid.toNat && x.user_id == uid)
            (fun x => { x with completed := true, updated_at := now1 }) s.tasks).find?
          (fun x => x.id == tid.toNat && x.user_id == uid) =
          some { t with completed := true, updated_at := now1 } := by
      apply find?_updateFirst_of_pos _ _ _ _ _ hfind
      simp [hid, huser]
    simp [complete_task, hval, hparse, get_task_by_id_and_user, hfind, hfind2, hc,
      ToolResponse.completedFlag, ToolResponse.ok]
  · -- already completed: both calls leave the store alone
    simp [complete_task, hval, hparse, get_task_by_id_and_user, hfind, hc,
      ToolResponse.completedFlag, ToolResponse.ok]

/-- C3 (witness): the theorem applied to a concrete one-task store. -/
theorem complete_task_idempotent_witness :
    (complete_task { task_id := "1", user_id := "1" } 1
      { tasks := [{ id := 1, user_id := 1, title := "buy milk" }], next_id := 2 } 5).1.completedFlag
      = some true ∧
    (complete_task { task_id := "1", user_id := "1" } 1
      (complete_task { task_id := "1", user_id := "1" } 1
        { tasks := [{ id := 1, user_id := 1, title := "buy milk" }], next_id := 2 } 5).2 9).2 =
      (complete_task { task_id := "1", user_id := "1" } 1
        { tasks := [{ id := 1, user_id := 1, title := "buy milk" }], next_id := 2 } 5).2 := by
  have h := complete_task_idempotent { task_id := "1", user_id := "1" } 1 1 5 9
    { tasks := [{ id := 1, user_id := 1, title := "buy milk" }], next_id := 2 }
    { id := 1, user_id := 1, title := "buy milk" }
    (by constructor <;> simp) (by decide) (by decide) (by decide)
    (by decide) (by decide) (by decide)
  exact ⟨h.2.1, h.2.2.2.2⟩

/-- C8 (counterexample): a valid `delete_task` call on an owned task removes
the row and succeeds, but the tool emits NO event at all — in particular no
`task.deleted` — refuting the claim that a `task.deleted` event is emitted
after the commit (delete_task.py never calls the emitter). -/
theorem delete_task_emits_nothing_counterexample :
    (delete_task { task_id := "1", user_id := "1" } 1
      { tasks := [{ id := 1, user_id := 1, title := "buy milk" }], next_id := 2 }).1.success = true ∧
    (delete_task { task_id := "1", user_id := "1" } 1
      { tasks := [{ id := 1, user_id := 1, title := "buy milk" }], next_id := 2 }).2.1.tasks = [] ∧
    (delete_task { task_id := "1", user_id := "1" } 1
      { tasks := [{ id := 1, user_id := 1, title := "buy milk" }], next_id := 2 }).2.2 = [] ∧
    ¬ ∃ e ∈ (delete_task { task_id := "1", user_id := "1" } 1
      { tasks := [{ id := 1, user_id := 1, title := "buy milk" }], next_id := 2 }).2.2,
        e.event_type = "task.deleted" := by
  refine ⟨by decide, by decide, by decide, ?_⟩
  rintro ⟨e, he, -⟩
  have h2 : (delete_task { task_id := "1", user_id := "1" } 1
      { tasks := [{ id := 1, user_id := 1, title := "buy milk" }], next_id := 2 }).2.2 = [] := by
    decide
  rw [h2] at he
  cases he

/-- C8 (amended): for valid parameters naming a task owned by the caller
(on a store with unique ids), `delete_task` permanently removes the row from
the Task Store and returns a success envelope with `deleted=true` — but it
emits no event to the Event Sink at all (the emission described by the spec
does not exist in this tool). -/
theorem delete_task_removes_without_event
    (pd : DeleteTaskParams) (tid : Int) (uid : Nat) (s : Store) (t : TaskRow)
    (hW : s.WF)
    (hparse : pyParseInt pd.task_id = some tid) (hpos : 0 < tid)
    (huid : validUserId pd.user_id = true)
    (hmem : t ∈ s.tasks) (hid : t.id = tid.toNat) (huser : t.user_id = uid) :
    (delete_task pd uid s).1 = ToolResponse.ok (.deleteData true pd.task_id) ∧
    (delete_task pd uid s).2.1.tasks = s.tasks.filter (fun x => !(x.id == tid.toNat)) ∧
    t ∉ (delete_task pd uid s).2.1.tasks ∧
    (delete_task pd uid s).2.2 = [] := by
  have hvt : validTaskId pd.task_id = true := by
    simp [validTaskId, hparse, hpos]
  have hval : validateDeleteTaskParams pd = .ok pd := by
    simp [validateDeleteTaskParams, hvt, huid]
  have hfind : s.tasks.find? (fun x => x.id == tid.toNat && x.user_id == uid) = some t :=
    find_owned_of_unique_id s.tasks t tid.toNat uid hW hmem hid huser
  refine ⟨?_, ?_, ?_, ?_⟩ <;>
    simp [delete_task, hval, hparse, get_task_by_id_and_user, hfind, crud_delete,
      List.mem_filter, hid]

/-- C8 (witness): the amended theorem applied to a concrete one-task store. -/
theorem delete_task_removes_without_event_witness :
    (delete_task { task_id := "3", user_id := "4" } 4
      { tasks := [{ id := 3, user_id := 4, title := "pay bills" }], next_id := 4 }).1 =
      ToolResponse.ok (.deleteData true "3") ∧
    (delete_task { task_id := "3", user_id := "4" } 4
      { tasks := [{ id := 3, user_id := 4, title := "pay bills" }], next_id := 4 }).2.2 = [] := by
  have h := delete_task_removes_without_event { task_id := "3", user_id := "4" } 3 4
    { tasks := [{ id := 3, user_id := 4, title := "pay bills" }], next_id := 4 }
    { id := 3, user_id := 4, title := "pay bills" }
    (by constructor <;> simp) (by decide) (by decide) (by decide)
    (by decide) (by decide) (by decide)
  exact ⟨h.1, h.2.2.2⟩

/-- C10: `update_task` is not atomic on error.  For validated parameters
with at least one update field naming a task owned by the caller (unique-id
store), the mutation IS committed to the Task Store (`crud_update` runs to
completion), yet the returned envelope is a `processing_error` failure — the
success branch passes a `tags` keyword to `TaskData.from_task`, which
accepts none, so the `TypeError` is raised before the success envelope is
built and before any `task.updated` event is emitted. -/
theorem update_task_commits_then_processing_error
    (pu vu : UpdateTaskParams) (tid : Int) (uid now : Nat)
    (s : Store) (t : TaskRow)
    (hW : s.WF)
    (hvu : validateUpdateTaskParams pu = .ok vu)
    (hvuf : has_update_fields vu = true)
    (hparse : pyParseInt vu.task_id = some tid) (_hpos : 0 < tid)
    (hmem : t ∈ s.tasks) (hid : t.id = tid.toNat) (huser : t.user_id = uid) :
    (update_task pu uid s now).1.success = false ∧
    (update_task pu uid s now).1.errCode = some "processing_error" ∧
    (update_task pu uid s now).2.1 = (crud_update s t vu now).2 ∧
    (update_task pu uid s now).2.2 = [] := by
  have hfind : s.tasks.find? (fun x => x.id == tid.toNat && x.user_id == uid) = some t :=
    find_owned_of_unique_id s.tasks t tid.toNat uid hW hmem hid huser
  refine ⟨?_, ?_, ?_, ?_⟩ <;>
    simp [update_task, hvu, hvuf, hparse, get_task_by_id_and_user, hfind,
      TaskData.from_task_with_tags_kwarg, ToolResponse.fail, ToolResponse.errCode,
      crud_update]

/-- C10 (witness): a concrete rename — the envelope is a `processing_error`
failure, yet the stored task row now carries the new title, so an error
envelope from `update_task` does not imply the task is unchanged. -/
theorem update_task_commits_then_processing_error_witness :
    (update_task { task_id := "1", user_id := "1", title := some "renamed" } 1
      { tasks := [{ id := 1, user_id := 1, title := "buy milk" }], next_id := 2 } 7).1.errCode
      = some "processing_error" ∧
    (update_task { task_id := "1", user_id := "1", title := some "renamed" } 1
      { tasks := [{ id := 1, user_id := 1, title := "buy milk" }], next_id := 2 } 7).2.1.tasks
      = [{ id := 1, user_id := 1, title := "renamed", updated_at := 7 }] ∧
    (update_task { task_id := "1", user_id := "1", title := some "renamed" } 1
      { tasks := [{ id := 1, user_id := 1, title := "buy milk" }], next_id := 2 } 7).2.1
      ≠ { tasks := [{ id := 1, user_id := 1, title := "buy milk" }], next_id := 2 } := by
  have h := update_task_commits_then_processing_error
    { task_id := "1", user_id := "1", title := some "renamed" }
    { task_id := "1", user_id := "1", title := some "renamed" }
    1 1 7
    { tasks := [{ id := 1, user_id := 1, title := "buy milk" }], next_id := 2 }
    { id := 1, user_id := 1, title := "buy milk" }
    (by constructor <;> simp) rfl (by decide) (by decide) (by decide)
    (by decide) (by decide) (by decide)
  refine ⟨h.2.1, ?_, by decide⟩
  rw [h.2.2.1]
  decide

/-- C7 (code_bug evaluation): the round-trip of the claim breaks at its
first step.  `add_task` with the valid title "buy milk" on an empty store
persists the task (the commit happens inside `create_task`), but then the
success branch raises the `tags`-keyword `TypeError`, so the returned
envelope is a `processing_error` failure instead of the success envelope the
claim (and the repository tests) require; the subsequent `list_tasks` for
the same user fails the same way once the list is nonempty. -/
theorem add_task_roundtrip_failing_input :
    (add_task { user_id := "1", title := "buy milk" } 1 {} 0).1.success = false ∧
    (add_task { user_id := "1", title := "buy milk" } 1 {} 0).1.errCode = some "processing_error" ∧
    (∃ t ∈ (add_task { user_id := "1", title := "buy milk" } 1 {} 0).2.1.tasks,
       t.title = "buy milk") ∧
    (add_task { user_id := "1", title := "buy milk" } 1 {} 0).2.2 = [] ∧
    (list_tasks { user_id := "1" } 1 (add_task { user_id := "1", title := "buy milk" } 1 {} 0).2.1
       (fun _ _ => false)).1.errCode = some "processing_error" := by
  exact ⟨by decide, by decide, by decide, by decide, by decide⟩

/-- C1 (counterexample): the greeting branch of `_process_message`
(runner.py line 142) runs BEFORE the pending-confirmation branch
(line 160), so a runner in the AwaitingDeleteConfirmation state that
receives "hi" renders the greeting and the pending confirmation survives
the turn — refuting "the very next call to run consumes and clears the
pending confirmation regardless of the message content". -/
theorem pending_survives_greeting_counterexample :
    (process_message
        (some { task := { id := 1, title := "buy milk" }, user_id := "1", lang := "en" })
        "hi" "1" 1
        { tasks := [{ id := 1, user_id := 1, title := "buy milk" }], next_id := 2 }
        (fun _ s => ({ success := true, response := "" }, none, s))).2.1
      = some { task := { id := 1, title := "buy milk" }, user_id := "1", lang := "en" } ∧
    (process_message
        (some { task := { id := 1, title := "buy milk" }, user_id := "1", lang := "en" })
        "hi" "1" 1
        { tasks := [{ id := 1, user_id := 1, title := "buy milk" }], next_id := 2 }
        (fun _ s => ({ success := true, response := "" }, none, s))).1.tool_calls = [] := by
  constructor
  · rfl
  · rfl

/-- C1 (amended): for every runner in the AwaitingDeleteConfirmation state,
the very next call whose message is NOT classified as a greeting or thanks
consumes and clears the pending confirmation: the next pending slot is
`none`; if the message is a confirmation, `delete_task` is called on the
pending task (its record is the sole tool call of the turn) and the
deleted/failed response is rendered from the tool outcome; for any other
message the cancellation message is rendered with no tool call and an
untouched store.  (A greeting or thanks message instead renders the canned
response and leaves the pending confirmation in place.) -/
theorem pending_consumed_next_nonlexical_turn
    (p : PendingConfirmation) (message : String) (uid_str : String) (uid_int : Nat)
    (s : Store)
    (idle : String → Store → AgentResult × Option PendingConfirmation × Store)
    (hg : is_greeting message = false) (ht : is_thanks message = false) :
    (process_message (some p) message uid_str uid_int s idle).2.1 = none ∧
    (is_confirmation message = true →
      (process_message (some p) message uid_str uid_int s idle).1.tool_calls =
        [{ tool_name := "delete_task",
           parameters := [("task_id", toString p.task.id)],
           result := (delete_task { task_id := toString p.task.id, user_id := uid_str } uid_int s).1 }] ∧
      (process_message (some p) message uid_str uid_int s idle).2.2 =
        (delete_task { task_id := toString p.task.id, user_id := uid_str } uid_int s).2.1 ∧
      (process_message (some p) message uid_str uid_int s idle).1.success =
        (delete_task { task_id := toString p.task.id, user_id := uid_str } uid_int s).1.success ∧
      (process_message (some p) message uid_str uid_int s idle).1.response =
        (if (delete_task { task_id := toString p.task.id, user_id := uid_str } uid_int s).1.success
         then format_task_deleted p.task (detect_language message)
         else map_tool_error (delete_task { task_id := toString p.task.id, user_id := uid_str } uid_int s).1
           (detect_language message))) ∧
    (is_confirmation message = false →
      (process_message (some p) message uid_str uid_int s idle).1 =
        { success := true,
          response := get_template_in cancel_msg (detect_language message),
          tool_calls := [], language := detect_language message } ∧
      (process_message (some p) message uid_str uid_int s idle).2.2 = s) := by
  rcases hdt : delete_task { task_id := toString p.task.id, user_id := uid_str } uid_int s
    with ⟨resp, s', evs⟩
  rcases hc : is_confirmation message with _ | _
  · refine ⟨?_, ?_, ?_⟩ <;>
      simp [process_message, hg, ht, handle_delete_confirmation, hc, call_tool_delete, hdt]
  · rcases hrs : resp.success with _ | _ <;>
      refine ⟨?_, ?_, ?_⟩ <;>
        simp [process_message, hg, ht, handle_delete_confirmation, hc, call_tool_delete, hdt, hrs]

/-- C1 (witness): the amended theorem at the confirmation message "yes"
over a one-task store: the pending slot is cleared and the sole tool call
of the turn is the `delete_task` invocation on the pending task. -/
theorem pending_consumed_next_nonlexical_turn_witness :
    (process_message
        (some { task := { id := 1, title := "buy milk" }, user_id := "1", lang := "en" })
        "yes" "1" 1
        { tasks := [{ id := 1, user_id := 1, title := "buy milk" }], next_id := 2 }
        (fun _ s => ({ success := true, response := "" }, none, s))).2.1 = none ∧
    (process_message
        (some { task := { id := 1, title := "buy milk" }, user_id := "1", lang := "en" })
        "yes" "1" 1
        { tasks := [{ id := 1, user_id := 1, title := "buy milk" }], next_id := 2 }
        (fun _ s => ({ success := true, response := "" }, none, s))).1.tool_calls =
      [{ tool_name := "delete_task",
         parameters := [("task_id", "1")],
         result := (delete_task { task_id := "1", user_id := "1" } 1
           { tasks := [{ id := 1, user_id := 1, title := "buy milk" }], next_id := 2 }).1 }] := by
  have h := pending_consumed_next_nonlexical_turn
    { task := { id := 1, title := "buy milk" }, user_id := "1", lang := "en" }
    "yes" "1" 1
    { tasks := [{ id := 1, user_id := 1, title := "buy milk" }], next_id := 2 }
    (fun _ s => ({ success := true, response := "" }, none, s))
    (by decide) (by decide)
  exact ⟨h.1, ((h.2.1) (by decide)).1⟩

